import Mathlib

/-!
Verification development for the cruise-ai chatbot core
(src/chatbot/src/core/chatbot.py and src/chatbot/src/services/mock_backend.py).

The Python code is shallowly embedded: pure helper routines become Lean
functions on `String`/`List Char`, the regular expressions of the intent
classifier are embedded as a small abstract-syntax tree evaluated by a fueled
backtracking matcher (faithful to leftmost search semantics of `re.search`),
stateful backend code becomes explicit state passing, and fallible
collaborators (sentiment model, backend, language model) become `Except`
valued oracle inputs.  Replies carry, besides the exact reply text built from
the string literals of the source, a ghost language tag and a ghost path tag
recording which `return` site of the Python code produced them, plus an event
trace recording backend calls in order.
-/

namespace Cruise

/-! ### Character helpers -/

/-- ASCII lower-casing of one character.  `str.lower()` in the source is only
applied to English keywords and Arabic text, on which this agrees with
Python. -/
def lowerC (c : Char) : Char :=
  if 'A' ≤ c ∧ c ≤ 'Z' then Char.ofNat (c.toNat + 32) else c

/-- Whitespace characters recognised by the regex class `\s` (ASCII part). -/
def isSpaceC (c : Char) : Bool :=
  c == ' ' || c == '\t' || c == '\n' || c == '\r' || c == '\x0b' || c == '\x0c'

/-- The regex word-character class `[a-zA-Z0-9_]`. -/
def isWordC (c : Char) : Bool :=
  ('a' ≤ c && c ≤ 'z') || ('A' ≤ c && c ≤ 'Z') || ('0' ≤ c && c ≤ '9') || c == '_'

/-- Membership in the Arabic Unicode block U+0600 to U+06FF. -/
def isArabicC (c : Char) : Bool :=
  0x600 ≤ c.toNat && c.toNat ≤ 0x6FF

/-! ### String helpers mirroring the Python operations used by the source -/

/-- `message.lower()`. -/
def lowerStr (s : String) : String :=
  String.mk (s.toList.map lowerC)

/-- `any(u0600 <= c <= u06FF for c in message)`. -/
def containsArabic (s : String) : Bool :=
  s.toList.any isArabicC

/-- Substring test on character lists, used for the Python `word in text`. -/
def isSubstrCL (pat : List Char) : List Char → Bool
  | [] => pat.isEmpty
  | c :: rest => pat.isPrefixOf (c :: rest) || isSubstrCL pat rest

/-- Python `sub in s`. -/
def containsSub (s sub : String) : Bool :=
  isSubstrCL sub.toList s.toList

/-- Python `s.split(sep)` for a single-character separator: splits at every
occurrence, keeping empty pieces. -/
def splitOnCharCL (sep : Char) : List Char → List (List Char)
  | [] => [[]]
  | c :: rest =>
    match splitOnCharCL sep rest with
    | [] => [[]]
    | g :: gs => if c == sep then [] :: g :: gs else (c :: g) :: gs

/-- Python `s.strip()`: drop whitespace from both ends. -/
def stripCL (s : List Char) : List Char :=
  ((s.dropWhile isSpaceC).reverse.dropWhile isSpaceC).reverse

/-- The last `min n (length xs)` elements, as in `xs[-min(n, len(xs)):]`. -/
def lastN (n : Nat) (xs : List (List Char)) : List (List Char) :=
  xs.drop (xs.length - n)

/-- Python `" ".join(pieces)`. -/
def joinSpace (xs : List (List Char)) : List Char :=
  List.intercalate [' '] xs

/-- Python `s.split(sep, 1)` restricted to the case where `sep` occurs:
returns the pieces before and after the first occurrence of `sep`. -/
def splitFirstOn (sep : List Char) : List Char → Option (List Char × List Char)
  | [] => none
  | c :: rest =>
    if sep.isPrefixOf (c :: rest) then some ([], (c :: rest).drop sep.length)
    else (splitFirstOn sep rest).map (fun p => (c :: p.1, p.2))

/-! ### A small regex engine

The intent classifier evaluates Python regular expressions with `re.search`.
The pattern features actually used there are: literal characters (under
`re.IGNORECASE`), character classes, concatenation, alternation, greedy `*`
and `+` over single-character classes, and the word boundary `\b`.  They are
embedded as the following AST and evaluated with a continuation-passing
backtracking matcher; a fuel argument (decremented at every node visit)
guarantees termination and is chosen large enough to never cut off a match on
the inputs at hand. -/

inductive RE where
  | eps : RE
  | cc (p : Char → Bool) : RE
  | seq (a b : RE) : RE
  | alt (a b : RE) : RE
  | star (r : RE) : RE
  | wb : RE

/-- Structural size of a pattern, used only to compute a sufficient fuel. -/
def sizeRE : RE → Nat
  | .eps => 1
  | .cc _ => 1
  | .seq a b => sizeRE a + sizeRE b + 1
  | .alt a b => sizeRE a + sizeRE b + 1
  | .star r => sizeRE r + 1
  | .wb => 1

def isWordOpt : Option Char → Bool
  | none => false
  | some c => isWordC c

def isWordHead : List Char → Bool
  | [] => false
  | c :: _ => isWordC c

/-- Backtracking matcher.  `prev` is the character just before the current
position (for `\b`), `k` the continuation.  Alternatives are tried left to
right and `star` is greedy, as in Python. -/
def mtch : Nat → RE → Option Char → List Char → (Option Char → List Char → Bool) → Bool
  | 0, _, _, _, _ => false
  | fuel + 1, re, prev, s, k =>
    match re with
    | .eps => k prev s
    | .cc p =>
      match s with
      | [] => false
      | c :: rest => p c && k (some c) rest
    | .seq a b => mtch fuel a prev s (fun p2 s2 => mtch fuel b p2 s2 k)
    | .alt a b => mtch fuel a prev s k || mtch fuel b prev s k
    | .star r => mtch fuel r prev s (fun p2 s2 => mtch fuel (.star r) p2 s2 k) || k prev s
    | .wb => (isWordOpt prev != isWordHead s) && k prev s

/-- Fuel bound: on our patterns a successful match path visits far fewer
nodes than this. -/
def fuelFor (r : RE) (s : List Char) : Nat :=
  (sizeRE r + 2) * (s.length + 2) * 2

/-- Try a match at the current position, else advance one character,
tracking the previous character: the semantics of `re.search`. -/
def reSearchAux (r : RE) : Option Char → List Char → Bool
  | prev, [] => mtch (fuelFor r []) r prev [] (fun _ _ => true)
  | prev, c :: rest =>
    mtch (fuelFor r (c :: rest)) r prev (c :: rest) (fun _ _ => true) ||
      reSearchAux r (some c) rest

/-- `re.search(pattern, s) is not None`. -/
def reSearch (r : RE) (s : String) : Bool :=
  reSearchAux r none s.toList

/-- A literal character under `re.IGNORECASE`. -/
def reLit (c : Char) : RE :=
  .cc (fun x => lowerC x == lowerC c)

/-- A literal string under `re.IGNORECASE`. -/
def reStr (w : String) : RE :=
  w.toList.foldr (fun c r => RE.seq (reLit c) r) RE.eps

/-- Ordered alternation of a list of patterns. -/
def reAlts : List RE → RE
  | [] => .cc (fun _ => false)
  | [r] => r
  | r :: rest => .alt r (reAlts rest)

/-- Concatenation of a list of patterns. -/
def reSeqs : List RE → RE
  | [] => .eps
  | r :: rest => .seq r (reSeqs rest)

/-- `\s`. -/
def reSpace : RE := .cc isSpaceC

/-- `\s+`. -/
def reSpaces1 : RE := .seq reSpace (.star reSpace)

/-- `.` — any character except a newline, as in Python without DOTALL. -/
def reDot : RE := .cc (fun c => c != '\n')

/-- `.*`. -/
def reDotStar : RE := .star reDot

/-- `.+`. -/
def reDotPlus : RE := .seq reDot (.star reDot)

/-! ### The intent classifier pattern table (chatbot.py, `_determine_intent`) -/

def bookingPats : List RE :=
  [ reSeqs [RE.wb, reAlts [reStr ("book"), reStr ("order"), reStr ("get"), reStr ("need"),
      reStr ("want"), reStr ("request"), reStr ("schedule")], reSpaces1, reDotStar, RE.wb,
      reAlts [reStr ("ride"), reStr ("car"), reStr ("taxi"), reStr ("vehicle"),
      reStr ("transportation")], RE.wb],
    reSeqs [RE.wb, reStr ("take me to"), RE.wb],
    reSeqs [RE.wb, reStr ("pick me up"), RE.wb],
    reSeqs [RE.wb, reStr ("from"), reSpaces1, reDotPlus, reSpaces1, reStr ("to"),
      reSpaces1, reDotPlus, RE.wb] ]

def cancellationPats : List RE :=
  [ reSeqs [RE.wb, reAlts [reStr ("cancel"), reStr ("stop"), reStr ("abort"),
      reStr ("terminate")], reSpaces1, reDotStar, RE.wb,
      reAlts [reStr ("ride"), reStr ("booking"), reStr ("trip"), reStr ("order")], RE.wb],
    reSeqs [RE.wb, reStr ("i want to cancel"), RE.wb],
    reSeqs [RE.wb, reStr ("don\x27t need the ride"), RE.wb] ]

def recommendationPats : List RE :=
  [ reSeqs [RE.wb, reAlts [reStr ("recommend"), reStr ("suggest"), reStr ("advise"),
      reStr ("what should"), reStr ("propose")], RE.wb],
    reSeqs [RE.wb, reStr ("what\x27s good"), RE.wb],
    reSeqs [RE.wb, reStr ("what do you recommend"), RE.wb] ]

def safetyPats : List RE :=
  [ reSeqs [RE.wb, reAlts [reStr ("safety"), reStr ("safe"), reStr ("security"),
      reStr ("secure")], RE.wb],
    reSeqs [RE.wb, reStr ("check safety"), RE.wb],
    reSeqs [RE.wb, reStr ("how safe"), RE.wb] ]

def carpoolPats : List RE :=
  [ reSeqs [RE.wb, reAlts [reStr ("carpool"), reStr ("pool"), reStr ("share"),
      reStr ("car sharing"), reStr ("shared ride")], RE.wb],
    reSeqs [RE.wb, reStr ("share a ride"), RE.wb],
    reSeqs [RE.wb, reStr ("split the cost"), RE.wb] ]

/-- `for pattern in group: if re.search(pattern, message): ...` -/
def anyMatch (pats : List RE) (message : String) : Bool :=
  pats.any (fun p => reSearch p message)

inductive Intent where
  | booking : Intent
  | cancellation : Intent
  | recommendations : Intent
  | safety : Intent
  | carpool : Intent
  | unknown : Intent
deriving DecidableEq, Repr

/-- `_determine_intent(message)`: the sequential pattern-group checks of the
source, one `if` per group in source order. -/
def determineIntent (message : String) : Intent :=
  if anyMatch bookingPats message then .booking
  else if anyMatch cancellationPats message then .cancellation
  else if anyMatch recommendationPats message then .recommendations
  else if anyMatch safetyPats message then .safety
  else if anyMatch carpoolPats message then .carpool
  else .unknown

/-- Modelled from the spec words for claim C5: the ordered table of pattern
groups, priority order booking, cancellation, recommendations, safety,
carpool. -/
def intentTable : List (Intent × List RE) :=
  [ (.booking, bookingPats), (.cancellation, cancellationPats),
    (.recommendations, recommendationPats), (.safety, safetyPats),
    (.carpool, carpoolPats) ]

/-- Modelled from the spec words for claim C5: the first intent in the fixed
priority order whose group contains a matching pattern; `unknown` when no
group matches. -/
def classifyFirstMatch (message : String) : Intent :=
  match intentTable.find? (fun p => anyMatch p.2 message) with
  | some p => p.1
  | none => .unknown

/-! ### Booking-identifier extraction (chatbot.py, `_handle_cancellation`)

The source searches `(?:id|booking|reference)\s*(?:is|:|\#)?\s*([a-zA-Z0-9_]+)`
with `re.IGNORECASE` and takes capture group 1.  The matcher below implements
exactly the leftmost search with ordered alternation and the backtracking of
the optional separator group.  (Backtracking on the greedy `\s*` cannot change
the capture here: neither a separator nor a token character is whitespace, so
a shorter `\s*` forces the empty separator alternative and the second `\s*`
re-consumes the same whitespace.) -/

/-- Case-insensitive literal prefix: the pattern is given in lowercase. -/
def stripPrefixI : List Char → List Char → Option (List Char)
  | [], s => some s
  | _ :: _, [] => none
  | p :: ps, c :: cs => if lowerC c == p then stripPrefixI ps cs else none

def dropSpacesCL (s : List Char) : List Char :=
  s.dropWhile isSpaceC

/-- `\s*([a-zA-Z0-9_]+)`: skip whitespace, then capture a nonempty run of word
characters (original case preserved, as Python captures do). -/
def tokTry (t : List Char) : Option (List Char) :=
  let t2 := dropSpacesCL t
  let tok := t2.takeWhile isWordC
  if tok.isEmpty then none else some tok

/-- `\s*(?:is|:|\#)?\s*([a-zA-Z0-9_]+)` after a keyword: the optional
separator alternatives are tried in source order, falling back to the empty
alternative. -/
def afterKw (s : List Char) : Option (List Char) :=
  let s1 := dropSpacesCL s
  match (stripPrefixI (("is").toList) s1).bind tokTry with
  | some tok => some tok
  | none =>
    match (stripPrefixI ((":").toList) s1).bind tokTry with
    | some tok => some tok
    | none =>
      match (stripPrefixI (("#").toList) s1).bind tokTry with
      | some tok => some tok
      | none => tokTry s1

/-- Try the full pattern at one position: keyword alternatives in source
order, each continued by `afterKw` (backtracking to the next keyword if the
continuation fails). -/
def kwTokAt (s : List Char) : Option (List Char) :=
  match (stripPrefixI (("id").toList) s).bind afterKw with
  | some tok => some tok
  | none =>
    match (stripPrefixI (("booking").toList) s).bind afterKw with
    | some tok => some tok
    | none => (stripPrefixI (("reference").toList) s).bind afterKw

/-- Leftmost search over start positions. -/
def scanBid : List Char → Option (List Char)
  | [] => none
  | c :: rest =>
    match kwTokAt (c :: rest) with
    | some tok => some tok
    | none => scanBid rest

/-- `re.search(booking_id_pattern, message, re.IGNORECASE)` with capture
group 1, as performed by `_handle_cancellation`. -/
def extractBookingId (message : String) : Option String :=
  (scanBid message.toList).map (fun l => String.mk l)

/-! ### Location extraction (chatbot.py, `_extract_locations`) -/

structure LocationSlots where
  pickup : Option String
  dropoff : Option String
deriving DecidableEq, Repr

/-- Python truthiness of `locations.get(key)`: present and nonempty. -/
def truthyS : Option String → Bool
  | none => false
  | some s => s ≠ ""

def countLeadSpaces (s : List Char) : Nat :=
  (s.takeWhile isSpaceC).length

/-- Greedy `\s+` with backtracking: try consuming all leading whitespace
first, then fewer, down to one character. -/
def tryDropsDesc (k : List Char → Option (List Char)) (s : List Char) : Nat → Option (List Char)
  | 0 => none
  | n + 1 =>
    match k (s.drop (n + 1)) with
    | some r => some r
    | none => tryDropsDesc k s n

def afterSpaces1 (k : List Char → Option (List Char)) (s : List Char) : Option (List Char) :=
  tryDropsDesc k s (countLeadSpaces s)

/-- The lazy capture `([^\.]+?)` followed by a terminator: grow the capture
one character at a time (never across a dot) and stop at the first point
where the terminator matches the remainder. -/
def lazyCap (term : List Char → Bool) : List Char → List Char → Option (List Char)
  | _, [] => none
  | acc, c :: rest =>
    if c == '.' then none
    else if term rest then some (acc ++ [c])
    else lazyCap term (acc ++ [c]) rest

/-- Terminator `(?:\s+to|\s*$)` of the pickup patterns. -/
def termPick (s : List Char) : Bool :=
  (decide (1 ≤ countLeadSpaces s) && (("to").toList).isPrefixOf (dropSpacesCL s)) ||
    (dropSpacesCL s).isEmpty

/-- Terminator `(?:\s*$|\s*\.|$)` of the dropoff patterns. -/
def termDrop (s : List Char) : Bool :=
  let t := dropSpacesCL s
  t.isEmpty ||
    (match t with
     | '.' :: _ => true
     | _ => false)

/-- Exact (already lower-cased) literal prefix. -/
def stripPrefixE (pat : String) (s : List Char) : Option (List Char) :=
  if pat.toList.isPrefixOf s then some (s.drop pat.toList.length) else none

/-- Leftmost search: try `atPos` at every start position. -/
def scanFor (atPos : List Char → Option (List Char)) : List Char → Option (List Char)
  | [] => atPos []
  | c :: rest =>
    match atPos (c :: rest) with
    | some r => some r
    | none => scanFor atPos rest

/-- `from\s+([^\.]+?)(?:\s+to|\s*$)` at one position. -/
def pickupPat1At (s : List Char) : Option (List Char) :=
  (stripPrefixE ("from") s).bind (afterSpaces1 (lazyCap termPick []))

/-- `at\s+([^\.]+?)(?:\s+to|\s*$)` at one position. -/
def pickupPat2At (s : List Char) : Option (List Char) :=
  (stripPrefixE ("at") s).bind (afterSpaces1 (lazyCap termPick []))

/-- `pickup(?:\s+(?:from|at))?\s+([^\.]+?)(?:\s+to|\s*$)` at one position:
the optional group is tried first (greedy `?`), with backtracking. -/
def pickupPat3At (s : List Char) : Option (List Char) :=
  (stripPrefixE ("pickup") s).bind (fun r =>
    let cont := afterSpaces1 (lazyCap termPick [])
    (afterSpaces1 (fun r2 =>
      ((stripPrefixE ("from") r2).bind cont) <|> ((stripPrefixE ("at") r2).bind cont)) r)
      <|> cont r)

/-- `pick me up (?:from|at)?\s+([^\.]+?)(?:\s+to|\s*$)` at one position
(note the literal space after `up` in the source pattern). -/
def pickupPat4At (s : List Char) : Option (List Char) :=
  (stripPrefixE ("pick me up ") s).bind (fun r =>
    let cont := afterSpaces1 (lazyCap termPick [])
    ((stripPrefixE ("from") r).bind cont) <|> ((stripPrefixE ("at") r).bind cont) <|> cont r)

/-- `to\s+([^\.]+?)(?:\s*$|\s*\.|$)` at one position. -/
def dropoffPat1At (s : List Char) : Option (List Char) :=
  (stripPrefixE ("to") s).bind (afterSpaces1 (lazyCap termDrop []))

/-- `destination(?:\s+(?:is|at))?\s+([^\.]+?)(?:\s*$|\s*\.|$)` at one
position. -/
def dropoffPat2At (s : List Char) : Option (List Char) :=
  (stripPrefixE ("destination") s).bind (fun r =>
    let cont := afterSpaces1 (lazyCap termDrop [])
    (afterSpaces1 (fun r2 =>
      ((stripPrefixE ("is") r2).bind cont) <|> ((stripPrefixE ("at") r2).bind cont)) r)
      <|> cont r)

/-- `take me to\s+([^\.]+?)(?:\s*$|\s*\.|$)` at one position. -/
def dropoffPat3At (s : List Char) : Option (List Char) :=
  (stripPrefixE ("take me to") s).bind (afterSpaces1 (lazyCap termDrop []))

/-- The `for pattern in pickup_patterns` loop: first pattern with a match
wins; the capture is `match.group(1).strip()`. -/
def firstPickupMatch (msgL : List Char) : Option String :=
  match scanFor pickupPat1At msgL with
  | some v => some (String.mk (stripCL v))
  | none =>
    match scanFor pickupPat2At msgL with
    | some v => some (String.mk (stripCL v))
    | none =>
      match scanFor pickupPat3At msgL with
      | some v => some (String.mk (stripCL v))
      | none =>
        match scanFor pickupPat4At msgL with
        | some v => some (String.mk (stripCL v))
        | none => none

/-- The `for pattern in dropoff_patterns` loop. -/
def firstDropoffMatch (msgL : List Char) : Option String :=
  match scanFor dropoffPat1At msgL with
  | some v => some (String.mk (stripCL v))
  | none =>
    match scanFor dropoffPat2At msgL with
    | some v => some (String.mk (stripCL v))
    | none =>
      match scanFor dropoffPat3At msgL with
      | some v => some (String.mk (stripCL v))
      | none => none

/-- Step 1 of `_extract_locations`: the split on the first `" to "` of the
lower-cased message, taking the last three whitespace tokens before and the
first three after, each accepted only when longer than two characters and
containing a space. -/
def extractLocationsSplit (msgL : List Char) : LocationSlots :=
  match splitFirstOn ((" to ").toList) msgL with
  | none => { pickup := none, dropoff := none }
  | some parts =>
    let pickupWords := splitOnCharCL ' ' (stripCL parts.1)
    let pickupCand := joinSpace (lastN 3 pickupWords)
    let dropWords := splitOnCharCL ' ' (stripCL parts.2)
    let dropCand := joinSpace (dropWords.take 3)
    { pickup :=
        if 2 < pickupCand.length ∧ pickupCand.contains ' ' then
          some (String.mk pickupCand)
        else none,
      dropoff :=
        if 2 < dropCand.length ∧ dropCand.contains ' ' then
          some (String.mk dropCand)
        else none }

/-- `_extract_locations(message)`: the split step, early return when it
produced both slots, otherwise the regex fallbacks (which overwrite a slot
only when a pattern matches). -/
def extractLocations (message : String) : LocationSlots :=
  let msgL := (lowerStr message).toList
  let step1 := extractLocationsSplit msgL
  if truthyS step1.pickup && truthyS step1.dropoff then step1
  else
    { pickup :=
        match firstPickupMatch msgL with
        | some v => some v
        | none => step1.pickup,
      dropoff :=
        match firstDropoffMatch msgL with
        | some v => some v
        | none => step1.dropoff }

/-! ### Sentiment analysis (chatbot.py, `analyze_sentiment`)

The star-rating model is an external collaborator; its output (the integer
parsed from a label `"X stars"`) enters the model as an `Except`-valued
oracle, `.error` standing for any exception inside the `try` block, which the
source converts to NEUTRAL at score 0.5. -/

inductive SLabel where
  | POSITIVE : SLabel
  | NEGATIVE : SLabel
  | NEUTRAL : SLabel
deriving DecidableEq, Repr

structure Sentiment where
  label : SLabel
  score : ℚ
deriving DecidableEq, Repr

def angryWords : List String :=
  [("angry"), ("mad"), ("upset"), ("furious"), ("frustrated"), ("annoyed"), ("irritated")]

/-- `any(word in message.lower() for word in angry_words)`. -/
def isAngryMsg (message : String) : Bool :=
  angryWords.any (fun w => containsSub (lowerStr message) w)

/-- `analyze_sentiment(message)` given the star rating of the model. -/
def analyzeSentiment (message : String) (rating : Except Unit Nat) : Sentiment :=
  match rating with
  | .error _ => { label := .NEUTRAL, score := (1 : ℚ) / 2 }
  | .ok r =>
    let isAngry := isAngryMsg message
    if isAngry ∨ r ≤ 2 then
      { label := .NEGATIVE,
        score := if isAngry then (4 : ℚ) / 5 else ((3 : ℚ) - (r : ℚ)) / 2 }
    else
      { label := .POSITIVE, score := ((r : ℚ) - 3) / 2 }

/-! ### The mock backend store (mock_backend.py) -/

structure Loc where
  name : String
  latitude : ℚ
  longitude : ℚ
deriving DecidableEq, Repr

structure DriverRec where
  name : String
  car : String
  plate : String
deriving DecidableEq, Repr

/-- A booking dictionary as created by `MockBackend.create_booking`:
`Option` fields model keys that may be absent from the dictionary (the mock
never sets `driver`, `eta_minutes` or `refund_amount`). -/
structure BookingRec where
  id : String
  userId : String
  pickup : Loc
  dropoff : Loc
  status : String
  createdAt : String
  driver : Option DriverRec
  etaMinutes : Option String
  refundAmount : Option Nat
deriving DecidableEq, Repr

/-- The details passed by `book_ride`: `{user_id, pickup, dropoff}`. -/
structure BookingDetails where
  userId : String
  pickup : Loc
  dropoff : Loc
deriving DecidableEq, Repr

/-- `self._bookings`: a Python dict as an insertion-ordered association
list. -/
abbrev MockSt := List (String × BookingRec)

/-- Dict lookup. -/
def dictLookup (st : MockSt) (k : String) : Option BookingRec :=
  match st.find? (fun p => p.1 == k) with
  | some p => some p.2
  | none => none

/-- Dict assignment: replace in place when the key exists, else append. -/
def dictInsert : MockSt → String → BookingRec → MockSt
  | [], k, v => [(k, v)]
  | p :: rest, k, v => if p.1 == k then (k, v) :: rest else p :: dictInsert rest k v

/-- `MockBackend.create_booking`: generates `booking_{len+1}`, stores the
booking with status `"pending"`, and returns it.  `now` stands for
`datetime.now().isoformat()`. -/
def createBooking (st : MockSt) (details : BookingDetails) (now : String) : BookingRec × MockSt :=
  let bookingId := ("booking_") ++ toString ((st : List (String × BookingRec)).length + 1)
  let booking : BookingRec :=
    { id := bookingId, userId := details.userId, pickup := details.pickup,
      dropoff := details.dropoff, status := ("pending"), createdAt := now,
      driver := none, etaMinutes := none, refundAmount := none }
  (booking, dictInsert st bookingId booking)

/-- The dictionary returned by `MockBackend.cancel_booking`: either the
stored booking (with its status set to `"cancelled"`) or the error
dictionary `{"error": "Booking not found"}`.  It never raises. -/
inductive CancelOut where
  | found (b : BookingRec) : CancelOut
  | notFound : CancelOut
deriving DecidableEq, Repr

/-- `MockBackend.cancel_booking`. -/
def cancelBooking (st : MockSt) (bookingId : String) : CancelOut × MockSt :=
  match dictLookup st bookingId with
  | some rec =>
    let rec2 := { rec with status := ("cancelled") }
    (CancelOut.found rec2, dictInsert st bookingId rec2)
  | none => (CancelOut.notFound, st)

/-- `result.get("refund_amount", 0)` on the dictionary returned by
`cancel_booking`: neither the stored bookings nor the error dictionary of
this repository carry a `refund_amount` key unless a booking record sets
one. -/
def refundOf : CancelOut → Option Nat
  | .found b => b.refundAmount
  | .notFound => none

/-! ### Replies and events -/

/-- Which `return` site of the Python code produced the reply (ghost
instrumentation). -/
inductive RPath where
  | escalation : RPath
  | escalationFailed : RPath
  | bookingH : RPath
  | cancellationH : RPath
  | recommendationsH : RPath
  | safetyH : RPath
  | carpoolH : RPath
  | llmReply : RPath
  | outerFallback : RPath
deriving DecidableEq, Repr

/-- A reply: the exact text built from the string literals of the source,
the language it is attributed to (the branch of the `if language == "ar"`
chosen, or the language requested from the language model), and the return
site. -/
structure ReplyData where
  text : String
  lang : String
  path : RPath
deriving DecidableEq, Repr

/-- Backend and collaborator calls, in order of occurrence. -/
inductive Event where
  | escalateCall (userId message : String) (s : Sentiment) : Event
  | classifyStep (i : Intent) : Event
  | handlerRun (i : Intent) : Event
  | createCall : Event
  | cancelCall (bookingId : String) : Event
  | historyCall : Event
  | recsCall : Event
  | carpoolCall : Event
  | llmCall : Event
  | memoryUpdate : Event
deriving DecidableEq, Repr

/-- A ride dictionary from `get_ride_history` as consumed by
`_handle_cancellation` (`status`, optional `dropoff` text). -/
structure RideRec where
  status : String
  dropoff : Option String
deriving DecidableEq, Repr

/-- A carpool match dictionary as consumed by `_handle_carpool`; the mock
matches carry none of these keys. -/
structure CarpoolMatch where
  driver : Option String
  pickup : Option String
  dropoff : Option String
  time : Option String
deriving DecidableEq, Repr

/-- Outcomes of the external collaborators for one `process_message` turn;
`.error` stands for the call raising an exception. -/
structure Oracles where
  rating : Except Unit Nat
  escalateRes : Except Unit Unit
  createRes : Except Unit BookingRec
  cancelRes : Except Unit CancelOut
  histRes : Except Unit (List RideRec)
  recsRes : Except Unit String
  carpoolRes : Except Unit (List CarpoolMatch)
  llmRes : Except Unit String

/-! ### Reply string literals, copied from the source (chatbot.py) -/

def enEmpathetic : String :=
  ("I understand you\x27re feeling frustrated. I\x27m escalating this to our support team who will assist you shortly. In the meantime, is there anything specific I can help you with?")

def arEmpathetic : String :=
  ("أفهم أنك قد تشعر بالإحباط. سأقوم بتصعيد هذا الأمر إلى فريق الدعم لدينا الذي سيساعدك قريبًا. في غضون ذلك، هل هناك شيء محدد يمكنني مساعدتك به؟")

def enEscFail : String :=
  ("I notice you seem upset. I\x27d like to connect you with our support team, but I\x27m having technical difficulties. Please try again or call our support line at 1-800-CRUISE-HELP for immediate assistance.")

def arEscFail : String :=
  ("ألاحظ أنك تبدو منزعجًا. أود أن أوصلك بفريق الدعم لدينا، لكنني أواجه صعوبات تقنية. يرجى المحاولة مرة أخرى أو الاتصال بخط الدعم على 1-800-CRUISE-HELP للحصول على مساعدة فورية.")

def enOuter : String :=
  ("I\x27m sorry, I encountered an error while processing your request. Please try again or contact our support team for assistance.")

def arOuter : String :=
  ("آسف، واجهت خطأ أثناء معالجة طلبك. يرجى المحاولة مرة أخرى أو الاتصال بفريق الدعم للحصول على المساعدة.")

def enBookConfirm (pickup dropoff bid dname dcar dplate eta : String) : String :=
  ("Great! I\x27ve booked your ride from ") ++ pickup ++ (" to ") ++ dropoff ++
  (". Your booking ID is ") ++ bid ++ (". Your driver ") ++ dname ++
  (" will arrive in a ") ++ dcar ++ (" (plate: ") ++ dplate ++
  (") in approximately ") ++ eta ++ (" minutes.")

def arBookConfirm (pickup dropoff bid dname dcar dplate eta : String) : String :=
  ("رائع! لقد حجزت رحلتك من ") ++ pickup ++ (" إلى ") ++ dropoff ++
  (". رقم حجزك هو ") ++ bid ++ (". سيصل سائقك ") ++ dname ++
  (" بسيارة ") ++ dcar ++ (" (لوحة: ") ++ dplate ++
  (") في غضون ") ++ eta ++ (" دقيقة تقريبًا.")

def enBookFail : String :=
  ("I couldn\x27t complete your booking due to a technical issue. Please try again or contact support if the problem persists.")

def arBookFail : String :=
  ("لم أتمكن من إكمال حجزك بسبب مشكلة فنية. يرجى المحاولة مرة أخرى أو الاتصال بالدعم إذا استمرت المشكلة.")

def enPickupOnly (pickup : String) : String :=
  ("I see you want to be picked up at ") ++ pickup ++ (". Where would you like to go?")

def arPickupOnly (pickup : String) : String :=
  ("أرى أنك تريد أن يتم استلامك من ") ++ pickup ++ (". إلى أين ترغب في الذهاب؟")

def enDropoffOnly (dropoff : String) : String :=
  ("I see you want to go to ") ++ dropoff ++ (". Where would you like to be picked up from?")

def arDropoffOnly (dropoff : String) : String :=
  ("أرى أنك تريد الذهاب إلى ") ++ dropoff ++ (". من أين ترغب في أن يتم استلامك؟")

def enBookPrompt : String :=
  ("I can help you book a ride. Please let me know your pickup and dropoff locations.")

def arBookPrompt : String :=
  ("يمكنني مساعدتك في حجز رحلة. يرجى إخباري بمواقع الاستلام والإنزال الخاصة بك.")

def enCancelDone (bid refund : String) : String :=
  ("I\x27ve cancelled your ride (Booking ID: ") ++ bid ++ ("). ") ++ refund ++
  (" has been refunded to your account. Is there anything else I can help you with?")

def arCancelDone (bid refund : String) : String :=
  ("لقد ألغيت رحلتك (معرف الحجز: ") ++ bid ++ ("). تم رد ") ++ refund ++
  (" إلى حسابك. هل هناك أي شيء آخر يمكنني مساعدتك به؟")

def enCancelFail : String :=
  ("I couldn\x27t cancel your ride due to a technical issue. Please try again or contact support if the problem persists.")

def arCancelFail : String :=
  ("لم أتمكن من إلغاء رحلتك بسبب مشكلة فنية. يرجى المحاولة مرة أخرى أو الاتصال بالدعم إذا استمرت المشكلة.")

def enActiveRide (dest : String) : String :=
  ("I found your active ride to ") ++ dest ++
  (". To cancel it, please reply with \x27Yes, cancel\x27 or provide the booking ID.")

def arActiveRide (dest : String) : String :=
  ("لقد وجدت رحلتك النشطة إلى ") ++ dest ++
  (". لإلغائها، يرجى الرد بـ \x27نعم، ألغِ\x27 أو قدم معرف الحجز.")

def enNoActive : String :=
  ("I don\x27t see any active rides for you. If you have a booking ID, please provide it so I can help you cancel the correct ride.")

def arNoActive : String :=
  ("لا أرى أي رحلات نشطة لك. إذا كان لديك معرف حجز، يرجى تقديمه حتى أتمكن من مساعدتك في إلغاء الرحلة الصحيحة.")

def enNoHistory : String :=
  ("I couldn\x27t find any ride history. Please provide your booking ID so I can help you cancel the correct ride.")

def arNoHistory : String :=
  ("لم أتمكن من العثور على أي سجل للرحلات. يرجى تقديم معرف الحجز الخاص بك حتى أتمكن من مساعدتك في إلغاء الرحلة الصحيحة.")

def enHistFail : String :=
  ("I can help you cancel your ride. Please provide your booking ID.")

def arHistFail : String :=
  ("يمكنني مساعدتك في إلغاء رحلتك. يرجى تقديم معرف الحجز الخاص بك.")

def enRec (content : String) : String :=
  ("Based on your history, I recommend: ") ++ content

def arRec (content : String) : String :=
  ("بناءً على سجلك، أوصي بما يلي: ") ++ content

def enRecEmpty : String :=
  ("I don\x27t have any specific recommendations at the moment. Would you like to book a ride to one of your favorite destinations?")

def arRecEmpty : String :=
  ("ليس لدي أي توصيات محددة في الوقت الحالي. هل ترغب في حجز رحلة إلى إحدى وجهاتك المفضلة؟")

def enRecFail : String :=
  ("I\x27m having trouble accessing your recommendations right now. Would you like me to help you book a ride instead?")

def arRecFail : String :=
  ("أواجه مشكلة في الوصول إلى توصياتك في الوقت الحالي. هل ترغب في مساعدتك في حجز رحلة بدلاً من ذلك؟")

def enSafety : String :=
  ("Safety check completed. Recommendations: Make sure to check the vehicle details and driver ID before starting your journey.")

def arSafety : String :=
  ("اكتمل فحص السلامة. التوصيات: تأكد من التحقق من تفاصيل السيارة وهوية السائق قبل بدء رحلتك.")

def enCarpoolBase (n : Nat) : String :=
  ("I found ") ++ toString n ++ (" carpool opportunities for your route. ")

def arCarpoolBase (n : Nat) : String :=
  ("وجدت ") ++ toString n ++ (" فرصة مشاركة سيارة لمسارك. ")

def enCarpoolOne (opp : CarpoolMatch) : String :=
  ("There\x27s a ride with ") ++ (opp.driver.getD ("a driver")) ++
  (" from ") ++ (opp.pickup.getD ("pickup")) ++ (" to ") ++ (opp.dropoff.getD ("dropoff")) ++
  (" at ") ++ (opp.time.getD ("the specified time")) ++ (".")

def arCarpoolOne (opp : CarpoolMatch) : String :=
  ("هناك رحلة مع ") ++ (opp.driver.getD ("سائق")) ++
  (" من ") ++ (opp.pickup.getD ("موقع الاستلام")) ++ (" إلى ") ++ (opp.dropoff.getD ("موقع الإنزال")) ++
  (" في ") ++ (opp.time.getD ("الوقت المحدد")) ++ (".")

def enCarpoolNone : String :=
  ("I don\x27t see any carpool opportunities at the moment. Would you like to book a regular ride instead?")

def arCarpoolNone : String :=
  ("لا أرى أي فرص لمشاركة السيارة في الوقت الحالي. هل ترغب في حجز رحلة عادية بدلاً من ذلك؟")

def enCarpoolFail : String :=
  ("I\x27m having trouble checking carpool options right now. Would you like to book a regular ride instead?")

def arCarpoolFail : String :=
  ("أواجه مشكلة في التحقق من خيارات مشاركة السيارة الآن. هل ترغب في حجز رحلة عادية بدلاً من ذلك؟")

/-! ### Intent handlers -/

/-- `_handle_booking`.  Each branch chooses between the Arabic and English
literal exactly as the `if language == "ar"` of the source does; the language
tag records that choice.  A missing `driver` key in a successful booking
makes the f-string raise a `KeyError`, which the surrounding `except` turns
into the technical-issue reply. -/
def handleBooking (message userId language : String)
    (createRes : Except Unit BookingRec) : ReplyData × List Event :=
  let isAr := language == ("ar")
  let L : String := if isAr then ("ar") else ("en")
  let locations := extractLocations message
  if truthyS locations.pickup && truthyS locations.dropoff then
    let pickupName := locations.pickup.getD ("")
    let dropoffName := locations.dropoff.getD ("")
    match createRes with
    | .ok booking =>
      match booking.driver with
      | some d =>
        ({ text := if isAr then
             arBookConfirm pickupName dropoffName booking.id d.name d.car d.plate
               (booking.etaMinutes.getD ("10-15"))
           else
             enBookConfirm pickupName dropoffName booking.id d.name d.car d.plate
               (booking.etaMinutes.getD ("10-15")),
           lang := L, path := .bookingH }, [Event.createCall])
      | none =>
        ({ text := if isAr then arBookFail else enBookFail,
           lang := L, path := .bookingH }, [Event.createCall])
    | .error _ =>
      ({ text := if isAr then arBookFail else enBookFail,
         lang := L, path := .bookingH }, [Event.createCall])
  else if truthyS locations.pickup then
    ({ text := if isAr then arPickupOnly (locations.pickup.getD (""))
       else enPickupOnly (locations.pickup.getD ("")),
       lang := L, path := .bookingH }, [])
  else if truthyS locations.dropoff then
    ({ text := if isAr then arDropoffOnly (locations.dropoff.getD (""))
       else enDropoffOnly (locations.dropoff.getD ("")),
       lang := L, path := .bookingH }, [])
  else
    ({ text := if isAr then arBookPrompt else enBookPrompt,
       lang := L, path := .bookingH }, [])

/-- `_handle_cancellation`. -/
def handleCancellation (message userId language : String)
    (cancelRes : Except Unit CancelOut) (histRes : Except Unit (List RideRec)) :
    ReplyData × List Event :=
  let isAr := language == ("ar")
  let L : String := if isAr then ("ar") else ("en")
  match extractBookingId message with
  | some bid =>
    match cancelRes with
    | .ok result =>
      let refund := toString ((refundOf result).getD 0)
      ({ text := if isAr then arCancelDone bid refund else enCancelDone bid refund,
         lang := L, path := .cancellationH }, [Event.cancelCall bid])
    | .error _ =>
      ({ text := if isAr then arCancelFail else enCancelFail,
         lang := L, path := .cancellationH }, [Event.cancelCall bid])
  | none =>
    match histRes with
    | .ok rideHistory =>
      if rideHistory.length > 0 then
        let activeRides := rideHistory.filter
          (fun r => !(r.status == ("cancelled") || r.status == ("completed")))
        match activeRides with
        | latest :: _ =>
          ({ text := if isAr then arActiveRide (latest.dropoff.getD ("وجهتك"))
             else enActiveRide (latest.dropoff.getD ("your destination")),
             lang := L, path := .cancellationH }, [Event.historyCall])
        | [] =>
          ({ text := if isAr then arNoActive else enNoActive,
             lang := L, path := .cancellationH }, [Event.historyCall])
      else
        ({ text := if isAr then arNoHistory else enNoHistory,
           lang := L, path := .cancellationH }, [Event.historyCall])
    | .error _ =>
      ({ text := if isAr then arHistFail else enHistFail,
         lang := L, path := .cancellationH }, [Event.historyCall])

/-- `_handle_recommendations`: `get_recommendations` wraps the model answer
in a one-element list, so the nonempty branch formats its first content. -/
def handleRecommendations (userId language : String)
    (recsRes : Except Unit String) : ReplyData × List Event :=
  let isAr := language == ("ar")
  let L : String := if isAr then ("ar") else ("en")
  match recsRes with
  | .ok content =>
    let recommendations : List String := [content]
    if recommendations.length > 0 then
      ({ text := if isAr then arRec (recommendations.headD (""))
         else enRec (recommendations.headD ("")),
         lang := L, path := .recommendationsH }, [Event.recsCall])
    else
      ({ text := if isAr then arRecEmpty else enRecEmpty,
         lang := L, path := .recommendationsH }, [Event.recsCall])
  | .error _ =>
    ({ text := if isAr then arRecFail else enRecFail,
       lang := L, path := .recommendationsH }, [Event.recsCall])

/-- `_handle_safety_check`: `perform_safety_check` returns a fixed literal
payload and cannot raise, so the `except` branch of the source is
unreachable. -/
def handleSafety (userId language : String) : ReplyData × List Event :=
  let isAr := language == ("ar")
  ({ text := if isAr then arSafety else enSafety,
     lang := if isAr then ("ar") else ("en"), path := .safetyH }, [])

/-- `_handle_carpool`: one match is described in full, several matches are
only counted, zero matches offer a regular ride. -/
def handleCarpool (userId language : String)
    (carpoolRes : Except Unit (List CarpoolMatch)) : ReplyData × List Event :=
  let isAr := language == ("ar")
  let L : String := if isAr then ("ar") else ("en")
  match carpoolRes with
  | .ok opportunities =>
    if opportunities.length > 0 then
      let base := if isAr then arCarpoolBase opportunities.length
        else enCarpoolBase opportunities.length
      let extra :=
        if opportunities.length == 1 then
          match opportunities with
          | opp :: _ => if isAr then arCarpoolOne opp else enCarpoolOne opp
          | [] => ("")
        else ("")
      ({ text := base ++ extra, lang := L, path := .carpoolH }, [Event.carpoolCall])
    else
      ({ text := if isAr then arCarpoolNone else enCarpoolNone,
         lang := L, path := .carpoolH }, [Event.carpoolCall])
  | .error _ =>
    ({ text := if isAr then arCarpoolFail else enCarpoolFail,
       lang := L, path := .carpoolH }, [Event.carpoolCall])

/-! ### The orchestrator (chatbot.py, `process_message`) -/

/-- The language auto-detection step: Arabic when any character falls in the
Arabic block and the caller-specified language was the default `"en"`. -/
def detectLanguage (message language : String) : String :=
  if language == ("en") && containsArabic message then ("ar") else language

structure ProcOut where
  reply : ReplyData
  events : List Event
  mem : List (String × String)
deriving DecidableEq, Repr

/-- `process_message(message, user_id, language)` for one user whose memory
is `mem`.  The LLM reply carries the language the prompt demands (the system
prompt requires the model to answer in the detected language).  The only
operation of the model that can reach the outermost `except` is the
general-fallback LLM call: sentiment analysis catches its own failures, the
escalation branch catches the escalation failure, and every handler catches
its backend failures. -/
def processMessage (message userId language : String) (o : Oracles)
    (mem : List (String × String)) : ProcOut :=
  let detected := detectLanguage message language
  let s := analyzeSentiment message o.rating
  if s.label = SLabel.NEGATIVE ∧ s.score > (1 : ℚ) / 2 then
    match o.escalateRes with
    | .ok _ =>
      { reply := { text := if detected == ("ar") then arEmpathetic else enEmpathetic,
                   lang := if detected == ("ar") then ("ar") else ("en"),
                   path := .escalation },
        events := [Event.escalateCall userId message s], mem := mem }
    | .error _ =>
      { reply := { text := if detected == ("ar") then arEscFail else enEscFail,
                   lang := if detected == ("ar") then ("ar") else ("en"),
                   path := .escalationFailed },
        events := [Event.escalateCall userId message s], mem := mem }
  else
    let intent := determineIntent (lowerStr message)
    let handled : Option (ReplyData × List Event) :=
      match intent with
      | .booking => some (handleBooking message userId detected o.createRes)
      | .cancellation => some (handleCancellation message userId detected o.cancelRes o.histRes)
      | .recommendations => some (handleRecommendations userId detected o.recsRes)
      | .safety => some (handleSafety userId detected)
      | .carpool => some (handleCarpool userId detected o.carpoolRes)
      | .unknown => none
    match handled with
    | some pr =>
      { reply := pr.1,
        events := [Event.classifyStep intent, Event.handlerRun intent] ++ pr.2 ++
          [Event.memoryUpdate],
        mem := mem ++ [(("user"), message), (("ai"), pr.1.text)] }
    | none =>
      match o.llmRes with
      | .ok txt =>
        { reply := { text := txt, lang := detected, path := .llmReply },
          events := [Event.classifyStep intent, Event.llmCall, Event.memoryUpdate],
          mem := mem ++ [(("user"), message), (("ai"), txt)] }
      | .error _ =>
        { reply := { text := if containsArabic message then arOuter else enOuter,
                     lang := if containsArabic message then ("ar") else ("en"),
                     path := .outerFallback },
          events := [Event.classifyStep intent, Event.llmCall], mem := mem }

/-! ### Fixed oracle valuations used by concrete witnesses -/

/-- All collaborators succeed (a five-star rating, an escalation ticket, an
LLM answer). -/
def oW : Oracles :=
  { rating := .ok 5, escalateRes := .ok (), createRes := .error (),
    cancelRes := .ok CancelOut.notFound, histRes := .ok [], recsRes := .ok (""),
    carpoolRes := .ok [], llmRes := .ok ("ok") }

/-- As `oW` but the general-fallback LLM call raises, which is the only way
the outermost `except` of `process_message` can trigger in the model. -/
def oLlmFail : Oracles :=
  { rating := .ok 5, escalateRes := .ok (), createRes := .error (),
    cancelRes := .ok CancelOut.notFound, histRes := .ok [], recsRes := .ok (""),
    carpoolRes := .ok [], llmRes := .error () }

/-! ### Helper lemmas -/

theorem dictLookup_insert (st : MockSt) (k : String) (v : BookingRec) :
    dictLookup (dictInsert st k v) k = some v := by
  induction st with
  | nil => simp [dictInsert, dictLookup, List.find?]
  | cons p rest ih =>
    by_cases hp : p.1 == k
    · simp [dictInsert, dictLookup, List.find?, hp]
    · simp only [dictInsert, hp, Bool.false_eq_true, if_false]
      simpa [dictLookup, List.find?, hp] using ih

theorem handleBooking_lang (message userId language : String) (r : Except Unit BookingRec) :
    (handleBooking message userId language r).1.lang =
      (if language == ("ar") then ("ar") else ("en")) := by
  simp only [handleBooking]
  repeat' split
  all_goals rfl

theorem handleBooking_path (message userId language : String) (r : Except Unit BookingRec) :
    (handleBooking message userId language r).1.path = RPath.bookingH := by
  simp only [handleBooking]
  repeat' split
  all_goals rfl

theorem handleCancellation_lang (message userId language : String)
    (c : Except Unit CancelOut) (h : Except Unit (List RideRec)) :
    (handleCancellation message userId language c h).1.lang =
      (if language == ("ar") then ("ar") else ("en")) := by
  simp only [handleCancellation]
  repeat' split
  all_goals rfl

theorem handleCancellation_path (message userId language : String)
    (c : Except Unit CancelOut) (h : Except Unit (List RideRec)) :
    (handleCancellation message userId language c h).1.path = RPath.cancellationH := by
  simp only [handleCancellation]
  repeat' split
  all_goals rfl

theorem handleRecommendations_lang (userId language : String) (r : Except Unit String) :
    (handleRecommendations userId language r).1.lang =
      (if language == ("ar") then ("ar") else ("en")) := by
  simp only [handleRecommendations]
  repeat' split
  all_goals rfl

theorem handleRecommendations_path (userId language : String) (r : Except Unit String) :
    (handleRecommendations userId language r).1.path = RPath.recommendationsH := by
  simp only [handleRecommendations]
  repeat' split
  all_goals rfl

theorem handleSafety_lang (userId language : String) :
    (handleSafety userId language).1.lang =
      (if language == ("ar") then ("ar") else ("en")) := by
  simp only [handleSafety]

theorem handleSafety_path (userId language : String) :
    (handleSafety userId language).1.path = RPath.safetyH := rfl

theorem handleCarpool_lang (userId language : String)
    (r : Except Unit (List CarpoolMatch)) :
    (handleCarpool userId language r).1.lang =
      (if language == ("ar") then ("ar") else ("en")) := by
  simp only [handleCarpool]
  repeat' split
  all_goals rfl

theorem handleCarpool_path (userId language : String)
    (r : Except Unit (List CarpoolMatch)) :
    (handleCarpool userId language r).1.path = RPath.carpoolH := by
  simp only [handleCarpool]
  repeat' split
  all_goals rfl

/-- Full characterisation of the language every reply of `process_message`
is attributed to, by return site: the outermost fallback localises by the
Arabic-character content of the message, the general LLM reply carries the
detected language the prompt demands, and every other site follows the
`if detected_language == "ar"` branch it took. -/
theorem processMessage_lang (message userId language : String) (o : Oracles)
    (mem : List (String × String)) :
    (processMessage message userId language o mem).reply.lang =
      (if (processMessage message userId language o mem).reply.path = RPath.outerFallback then
        (if containsArabic message then ("ar") else ("en"))
       else if (processMessage message userId language o mem).reply.path = RPath.llmReply then
        detectLanguage message language
       else (if detectLanguage message language == ("ar") then ("ar") else ("en"))) := by
  simp only [processMessage]
  split
  · split <;> simp
  · cases hI : determineIntent (lowerStr message)
    case unknown => cases o.llmRes <;> simp
    all_goals
      simp [handleBooking_lang, handleBooking_path, handleCancellation_lang,
        handleCancellation_path, handleRecommendations_lang, handleRecommendations_path,
        handleSafety_lang, handleSafety_path, handleCarpool_lang, handleCarpool_path]

/-! ### The claims -/

/-- Claim C1 (code behaviour at the claimed input).  The claim states that
the Cancellation Handler extracts the booking id ABC123 from the message
and passes it to cancel-booking.  The code does not: the keyword
alternation of the pattern matches the word booking and the capture group
then takes the next alphanumeric token, which is the literal word id, and
that word — not ABC123 — is what cancel-booking receives. -/
theorem claim1_extraction_behaviour :
    extractBookingId ("cancel booking id ABC123") = some ("id") ∧
    (handleCancellation ("cancel booking id ABC123") ("user1") ("en")
        (Except.ok CancelOut.notFound) (Except.ok [])).2 = [Event.cancelCall ("id")] ∧
    some ("id") ≠ some ("ABC123") := by
  refine ⟨by decide, by decide, by decide⟩

/-- Claim C2 (counterexample).  The split step keeps the last three
whitespace tokens before the split, which include the preposition from, so
the pickup slot is not the claimed "downtown station". -/
theorem claim2_counterexample :
    (extractLocations ("I need a ride from Downtown Station to Airport Terminal 1")).pickup ≠
      some ("downtown station") := by
  decide

/-- Claim C2 (amended).  For the message "I need a ride from Downtown
Station to Airport Terminal 1" the split-on-" to " step returns pickup
"from downtown station" — the last three lower-cased tokens before the
split, preposition included — and dropoff "airport terminal 1". -/
theorem claim2_amended :
    extractLocations ("I need a ride from Downtown Station to Airport Terminal 1") =
      { pickup := some ("from downtown station"), dropoff := some ("airport terminal 1") } := by
  decide

/-- Claim C3.  A message whose lower-cased text contains an anger keyword is
scored NEGATIVE at exactly 4/5 = 0.8 whatever the star rating; without an
anger keyword, a 1-2 star rating yields NEGATIVE at (3 - rating)/2 and a
3-5 star rating yields POSITIVE at (rating - 3)/2. -/
theorem claim3_sentiment (message : String) (rating : Nat) :
    (isAngryMsg message = true →
      analyzeSentiment message (Except.ok rating) =
        { label := SLabel.NEGATIVE, score := (4 : ℚ) / 5 }) ∧
    (isAngryMsg message = false → 1 ≤ rating → rating ≤ 2 →
      analyzeSentiment message (Except.ok rating) =
        { label := SLabel.NEGATIVE, score := ((3 : ℚ) - (rating : ℚ)) / 2 }) ∧
    (isAngryMsg message = false → 3 ≤ rating → rating ≤ 5 →
      analyzeSentiment message (Except.ok rating) =
        { label := SLabel.POSITIVE, score := ((rating : ℚ) - 3) / 2 }) := by
  refine ⟨?_, ?_, ?_⟩
  · intro h
    simp [analyzeSentiment, h]
  · intro h h1 h2
    simp [analyzeSentiment, h, h2]
  · intro h h3 h5
    have h2 : ¬(rating ≤ 2) := by omega
    simp [analyzeSentiment, h, h2]

theorem claim3_witness :
    analyzeSentiment ("I am furious") (Except.ok 5) =
      { label := SLabel.NEGATIVE, score := (4 : ℚ) / 5 } ∧
    analyzeSentiment ("hello") (Except.ok 1) =
      { label := SLabel.NEGATIVE, score := ((3 : ℚ) - ((1 : Nat) : ℚ)) / 2 } ∧
    analyzeSentiment ("hello") (Except.ok 4) =
      { label := SLabel.POSITIVE, score := (((4 : Nat) : ℚ) - 3) / 2 } :=
  ⟨(claim3_sentiment ("I am furious") 5).1 (by decide),
   (claim3_sentiment ("hello") 1).2.1 (by decide) (by decide) (by decide),
   (claim3_sentiment ("hello") 4).2.2 (by decide) (by decide) (by decide)⟩

/-- Claim C4.  When the sentiment of the message is NEGATIVE with score
above 0.5 and the escalation call succeeds, `process_message` performs
exactly one backend call — the escalation, with the user id, message and
sentiment — before any intent classification or handler event, returns the
fixed empathetic reply in the detected language, and leaves the user memory
untouched. -/
theorem claim4_escalation (message userId language : String) (o : Oracles)
    (mem : List (String × String)) (s : Sentiment)
    (hs : analyzeSentiment message o.rating = s)
    (hl : s.label = SLabel.NEGATIVE)
    (hsc : s.score > (1 : ℚ) / 2)
    (he : o.escalateRes = Except.ok ()) :
    (processMessage message userId language o mem).events =
      [Event.escalateCall userId message s] ∧
    (processMessage message userId language o mem).reply.path = RPath.escalation ∧
    (processMessage message userId language o mem).reply.text =
      (if detectLanguage message language == ("ar") then arEmpathetic else enEmpathetic) ∧
    (processMessage message userId language o mem).mem = mem := by
  simp only [processMessage, hs, he]
  rw [if_pos ⟨hl, hsc⟩]
  exact ⟨rfl, rfl, rfl, rfl⟩

theorem claim4_witness :
    (processMessage ("I am furious") ("user1") ("en") oW []).events =
      [Event.escalateCall ("user1") ("I am furious")
        { label := SLabel.NEGATIVE, score := (4 : ℚ) / 5 }] ∧
    (processMessage ("I am furious") ("user1") ("en") oW []).reply.path = RPath.escalation ∧
    (processMessage ("I am furious") ("user1") ("en") oW []).reply.text =
      (if detectLanguage ("I am furious") ("en") == ("ar") then arEmpathetic else enEmpathetic) ∧
    (processMessage ("I am furious") ("user1") ("en") oW []).mem = [] := by
  have ha : isAngryMsg ("I am furious") = true := by decide
  have hs : analyzeSentiment ("I am furious") (Except.ok 5) =
      { label := SLabel.NEGATIVE, score := (4 : ℚ) / 5 } := by
    simp [analyzeSentiment, ha]
  exact claim4_escalation ("I am furious") ("user1") ("en") oW []
    { label := SLabel.NEGATIVE, score := (4 : ℚ) / 5 } hs rfl (by norm_num) rfl

/-- Claim C5.  `_determine_intent` checks its pattern groups sequentially in
the order booking, cancellation, recommendations, safety, carpool, so for
every message it returns exactly the first intent of that ordered table
whose group has a matching pattern — later groups cannot override it — and
`unknown` when no group matches. -/
theorem claim5_intent_priority (message : String) :
    determineIntent message = classifyFirstMatch message := by
  by_cases h1 : anyMatch bookingPats message <;>
  by_cases h2 : anyMatch cancellationPats message <;>
  by_cases h3 : anyMatch recommendationPats message <;>
  by_cases h4 : anyMatch safetyPats message <;>
  by_cases h5 : anyMatch carpoolPats message <;>
  simp [determineIntent, classifyFirstMatch, intentTable, List.find?, h1, h2, h3, h4, h5]

/-- Claim C6.  A message containing a character of the Arabic block,
submitted with the default language en, is auto-detected as Arabic, and
every reply path of `process_message` — escalation, handlers, LLM fallback
and the outermost error fallback — is then produced in Arabic; in
particular this holds for messages consisting only of Arabic-range
characters. -/
theorem claim6_arabic_detection (message userId : String) (o : Oracles)
    (mem : List (String × String))
    (h : containsArabic message = true) :
    detectLanguage message ("en") = ("ar") ∧
    (processMessage message userId ("en") o mem).reply.lang = ("ar") := by
  have hd : detectLanguage message ("en") = ("ar") := by
    simp [detectLanguage, h]
  refine ⟨hd, ?_⟩
  rw [processMessage_lang]
  split
  · simp [h]
  · split
    · exact hd
    · simp [hd]

theorem claim6_witness :
    detectLanguage ("مرحبا") ("en") = ("ar") ∧
    (processMessage ("مرحبا") ("user1") ("en") oW []).reply.lang = ("ar") :=
  claim6_arabic_detection ("مرحبا") ("user1") oW [] (by decide)

/-- Claim C7.  For a booking-intent message from which both slots were
extracted, a raising `create_booking` never propagates: the handler returns
the technical-issue reply of the invocation language, and the English and
Arabic replies differ. -/
theorem claim7_booking_failure (message userId : String)
    (h1 : truthyS (extractLocations message).pickup = true)
    (h2 : truthyS (extractLocations message).dropoff = true) :
    (handleBooking message userId ("en") (Except.error ())).1.text = enBookFail ∧
    (handleBooking message userId ("ar") (Except.error ())).1.text = arBookFail ∧
    enBookFail ≠ arBookFail := by
  refine ⟨?_, ?_, by decide⟩ <;> simp [handleBooking, h1, h2]

theorem claim7_witness :
    (handleBooking ("ride from downtown station to airport terminal 1") ("user1") ("en")
        (Except.error ())).1.text = enBookFail ∧
    (handleBooking ("ride from downtown station to airport terminal 1") ("user1") ("ar")
        (Except.error ())).1.text = arBookFail ∧
    enBookFail ≠ arBookFail :=
  claim7_booking_failure ("ride from downtown station to airport terminal 1") ("user1")
    (by decide) (by decide)

/-- Claim C8 (counterexample).  With caller language ar and the Latin-only
message hello whose processing fails at the general LLM call, the effective
language is ar but the outermost error fallback localises by message
content and replies in English. -/
theorem claim8_counterexample :
    detectLanguage ("hello") ("ar") = ("ar") ∧
    (processMessage ("hello") ("user1") ("ar") oLlmFail []).reply.path = RPath.outerFallback ∧
    (processMessage ("hello") ("user1") ("ar") oLlmFail []).reply.lang = ("en") ∧
    (("en") : String) ≠ ("ar") := by
  refine ⟨by decide, by decide, by decide, by decide⟩

/-- Claim C8 (amended).  For caller languages en and ar, every reply of
`process_message` except the outermost error fallback is attributed to the
effective (possibly auto-detected) language; the outermost fallback instead
replies in Arabic exactly when the message contains an Arabic-block
character, which coincides with the effective language whenever the caller
language is en but can be English while the effective language is ar. -/
theorem claim8_amended (message userId language : String) (o : Oracles)
    (mem : List (String × String))
    (hl : language = ("en") ∨ language = ("ar")) :
    ((processMessage message userId language o mem).reply.path ≠ RPath.outerFallback →
      (processMessage message userId language o mem).reply.lang =
        detectLanguage message language) ∧
    ((processMessage message userId language o mem).reply.path = RPath.outerFallback →
      (processMessage message userId language o mem).reply.lang =
        (if containsArabic message then ("ar") else ("en"))) := by
  have hm := processMessage_lang message userId language o mem
  constructor
  · intro hp
    rw [hm, if_neg hp]
    split
    · rfl
    · rcases hl with h | h <;> subst h <;>
        by_cases hc : containsArabic message <;> simp [detectLanguage, hc]
  · intro hp
    rw [hm, if_pos hp]

theorem claim8_witness :
    (processMessage ("hello") ("user1") ("en") oW []).reply.lang =
      detectLanguage ("hello") ("en") :=
  (claim8_amended ("hello") ("user1") ("en") oW [] (Or.inl rfl)).1 (by decide)

/-- Claim C9.  Creating a booking in the mock backend and then cancelling
the returned booking id yields a result whose status is cancelled and whose
id is the booked id. -/
theorem claim9_roundtrip (st : MockSt) (details : BookingDetails) (now : String) :
    ∃ r, (cancelBooking (createBooking st details now).2 (createBooking st details now).1.id).1 =
        CancelOut.found r ∧
      r.status = ("cancelled") ∧
      r.id = (createBooking st details now).1.id := by
  simp only [createBooking, cancelBooking]
  rw [dictLookup_insert]
  exact ⟨_, rfl, rfl, rfl⟩

/-- Claim C10.  When a booking-id token is extracted but is not a key of
the mock store, `cancel_booking` returns the error dictionary without
raising and without touching the store, and the Cancellation Handler still
reports a successful cancellation with a refund of 0 in the invocation
language — the unknown id is never surfaced as an error. -/
theorem claim10_cancel_notfound (st : MockSt) (message userId language tok : String)
    (histRes : Except Unit (List RideRec))
    (h1 : extractBookingId message = some tok)
    (h2 : dictLookup st tok = none) :
    (cancelBooking st tok).1 = CancelOut.notFound ∧
    (cancelBooking st tok).2 = st ∧
    (handleCancellation message userId language (Except.ok CancelOut.notFound) histRes).1.text =
      (if language == ("ar") then arCancelDone tok ("0") else enCancelDone tok ("0")) ∧
    (handleCancellation message userId language (Except.ok CancelOut.notFound) histRes).1.path =
      RPath.cancellationH := by
  refine ⟨?_, ?_, ?_, ?_⟩
  · simp [cancelBooking, h2]
  · simp [cancelBooking, h2]
  · have h0 : toString (0 : Nat) = ("0") := rfl
    simp [handleCancellation, h1, refundOf, h0]
  · simp [handleCancellation, h1]

theorem claim10_witness :
    (cancelBooking [] ("id")).1 = CancelOut.notFound ∧
    (cancelBooking [] ("id")).2 = [] ∧
    (handleCancellation ("cancel booking id ABC123") ("user1") ("en")
        (Except.ok CancelOut.notFound) (Except.ok [])).1.text =
      (if ("en") == ("ar") then arCancelDone ("id") ("0") else enCancelDone ("id") ("0")) ∧
    (handleCancellation ("cancel booking id ABC123") ("user1") ("en")
        (Except.ok CancelOut.notFound) (Except.ok [])).1.path = RPath.cancellationH :=
  claim10_cancel_notfound [] ("cancel booking id ABC123") ("user1") ("en") ("id")
    (Except.ok []) (by decide) (by decide)

end Cruise
